import Mathlib

/-!
Shallow embedding of pydrive2/auth.py (class GoogleAuth and its decorators),
with theorems checking the natural-language specification against the code.

Python exceptions are modelled by an explicit error type, mutation of the
GoogleAuth instance by explicit state passing, and external observable
actions (storage backend reads/writes, file reads, network calls, console
interaction) by a trace of effects.  Outcomes of external collaborators
(the remote token endpoint, the local redirect listener, the operator at
the console, the filesystem) are supplied by an oracle record.
-/

deriving instance DecidableEq for Except

namespace PyDrive

/-- Python exception values raised by auth.py or by the libraries it calls.
AuthenticationRejected, AuthenticationError and RefreshError subclass
AuthError; InvalidConfigError and InvalidCredentialsError do not. -/
inductive PyErr where
  | invalidConfigError (msg : String)
  | invalidCredentialsError (msg : String)
  | authenticationRejected (msg : String)
  | authenticationError (msg : String)
  | refreshError (msg : String)
  | invalidClientSecretsError (msg : String)
  | keyError (key : String)
  | indexError
  | typeError (msg : String)
  | attributeError (msg : String)
  | osError
  | deviceCodeError
deriving DecidableEq, Repr

/-- Membership in the AuthError exception hierarchy of auth.py. -/
def PyErr.isAuthError : PyErr → Bool
  | .authenticationRejected _ => true
  | .authenticationError _ => true
  | .refreshError _ => true
  | _ => false

/-- Values stored in string-keyed Python configuration mappings
(client_config, settings["service_config"], ...).  A JSON key dict is
flattened to string fields, which is all auth.py ever stores in one. -/
inductive PyVal where
  | str (s : String)
  | dict (d : List (String × String))
  | pybool (b : Bool)
  | pynone
deriving DecidableEq, Repr

/-- Python truthiness of a PyVal. -/
def PyVal.truthy : PyVal → Bool
  | .str s => s ≠ ""
  | .dict d => d ≠ []
  | .pybool b => b
  | .pynone => false

/-- String-keyed mapping, as used for client_config and service_config. -/
abbrev StrMap := List (String × PyVal)

/-- Python dict .get: first binding of the key, none when absent. -/
def StrMap.get (m : StrMap) (k : String) : Option PyVal :=
  (m.find? (fun p => p.fst = k)).map Prod.snd

/-- Python dict assignment d[k] = v (replacing any earlier binding). -/
def StrMap.set (m : StrMap) (k : String) (v : PyVal) : StrMap :=
  match m with
  | [] => [(k, v)]
  | (k0, v0) :: rest =>
    if k0 = k then (k, v) :: rest else (k0, v0) :: StrMap.set rest k v

/-- Key membership test, Python `k in d`. -/
def StrMap.hasKey (m : StrMap) (k : String) : Bool :=
  (StrMap.get m k).isSome

/-- Provenance of a Credential: which constructor of the wrapped OAuth
library produced it.  Used to state which key material was consumed. -/
inductive CredSource where
  | jsonKeyfileDict (d : List (String × String))
  | jsonKeyfileName (filename : String)
  | p12Keyfile (email : String) (filename : String)
  | delegated (sub : String) (base : CredSource)
  | exchanged (code : String)
  | deviceToken (access_token : String)
  | fromStorage (backend : String)
deriving DecidableEq, Repr

/-- Modelled from the spec: a Credential is an opaque token bundle with an
optional refresh token and an expiry timestamp, plus the bound store.
The source field records which constructor produced it. -/
structure Credential where
  refresh_token : Option String
  token_expiry : Int
  store : Option String
  source : CredSource
deriving DecidableEq, Repr

/-- Modelled from the spec: the expiry check of the wrapped OAuth
credential object — true iff the stored expiry is at or before now. -/
def Credential.access_token_expired_at (c : Credential) (now : Int) : Bool :=
  c.token_expiry ≤ now

/-- Observable external actions, recorded in order of occurrence. -/
inductive Effect where
  | storageGet (backend : String)
  | storagePut (backend : String) (cred : Option Credential)
  | fileRead (path : String)
  | network (endpoint : String)
  | browserOpen (url : String)
  | consoleOut
  | consoleIn
  | servedRedirect
deriving DecidableEq, Repr

/-- Whether an effect is a read or write of a credential storage backend. -/
def Effect.isStorage : Effect → Bool
  | .storageGet _ => true
  | .storagePut _ _ => true
  | _ => false

/-- Whether an effect is a network call. -/
def Effect.isNetwork : Effect → Bool
  | .network _ => true
  | _ => false

/-- A trace touches no credential storage backend. -/
def storageFree (t : List Effect) : Bool :=
  t.all (fun e => !e.isStorage)

/-- Embeds oauth2client OAuth2WebServerFlow as used by auth.py. -/
structure Flow where
  client_id : Option String
  client_secret : Option String
  scope : Option String
  redirect_uri : Option String
  auth_uri : Option String
  token_uri : Option String
  revoke_uri : Option String
  user_agent : Option String
  offline_access : Bool
deriving DecidableEq, Repr

/-- File storage backend (oauth2client.file.Storage): the path, whether the
path is a symbolic link (which makes get/put raise OSError), and content. -/
structure FileStorage where
  filename : String
  is_symlink : Bool
  stored : Option Credential
deriving DecidableEq, Repr

/-- Dictionary storage backend (oauth2client DictionaryStorage). -/
structure DictStorage where
  creds_key : String
  stored : Option Credential
deriving DecidableEq, Repr

/-- Modelled from the spec: the redis credential storage backend of this
repository (pydrive2/storage/redis.py, not in src/): get returns a
previously stored credential or none, put persists what it is given. -/
structure RedisStorage where
  redis_key : Option String
  stored : Option Credential
deriving DecidableEq, Repr

/-- The _storages dict built at GoogleAuth initialization.  Keys "file" and
"dictionary" are always present (possibly mapped to None); the "redis" key
exists only when the redis backend was configured, which is why the redis
field none means the KEY is absent (lookup raises KeyError). -/
structure Storages where
  file : Option FileStorage
  dictionary : Option DictStorage
  redis : Option RedisStorage
deriving DecidableEq, Repr

/-- Settings dict, restricted to the keys auth.py reads. A none field means
the key is absent from the dict. -/
structure Settings where
  client_config_backend : Option String
  client_config_file : Option String
  save_credentials : Option Bool
  save_credentials_backend : Option String
  oauth_scope : Option (List String)
  get_refresh_token : Option Bool
  service_config : Option StrMap
  client_config_map : Option StrMap
deriving DecidableEq, Repr

/-- Mutable attributes of one GoogleAuth instance (settings are immutable
after construction but live here for access).  http and service record
whether those attributes are non-None; default_storage names the backend
the _default_storage attribute currently refers to. -/
structure AuthState where
  settings : Settings
  client_config : StrMap
  flow : Option Flow
  credentials : Option Credential
  http : Bool
  service : Bool
  auth_method : Option String
  storages : Storages
  default_storage : Option String
deriving DecidableEq, Repr

/-- Result of running one method: the Python return value or the exception,
the instance state at return or at the point the exception escaped, and
the trace of external effects performed. -/
structure Res (α : Type) where
  result : Except PyErr α
  state : AuthState
  trace : List Effect
deriving Repr

/-- Sequencing: run the continuation only when the first step returned
normally; effects accumulate, and an escaping exception keeps the state
and trace at the point it was raised. -/
def Res.andThen {α β : Type} (r : Res α) (f : α → AuthState → Res β) : Res β :=
  match r.result with
  | Except.error e => ⟨Except.error e, r.state, r.trace⟩
  | Except.ok a =>
    let r2 := f a r.state
    ⟨r2.result, r2.state, r.trace ++ r2.trace⟩

/-- Parsed content of a client-secrets file: the nested field dict of the
single top-level client-type entry.  A none field means the key is absent
from the JSON object. -/
structure ClientInfo where
  client_id : Option String
  client_secret : Option String
  auth_uri : Option String
  token_uri : Option String
  redirect_uris : Option (List String)
  revoke_uri : Option String
  client_email : Option String
deriving DecidableEq, Repr

/-- Outcomes of all external collaborators, fixed up front. -/
structure Oracle where
  now : Int
  refresh_ok : Bool
  refresh_err : String
  refresh_expiry : Int
  exchange_ok : Bool
  exchange_err : String
  exchange_refresh_token : Option String
  exchange_expiry : Int
  port_binds : Nat → Bool
  query_params : List (String × String)
  input_code : String
  device_code : Option (String × String × String)
  token_status : Nat
  token_access : String
  token_refresh : String
  token_expiry_val : Int
  service_cred_expiry : Int
  cs_content : Option (String × ClientInfo)

/-- Embeds the access_token_expired property (auth.py lines 209-217):
true when no credential is held, otherwise the credential expiry check.
The embedding is a plain function of the state, which is the purity part
of the property. -/
def access_token_expired (s : AuthState) (now : Int) : Bool :=
  match s.credentials with
  | none => true
  | some c => c.access_token_expired_at now

/-- Embeds _build_http (auth.py lines 810-823): constructs the httplib2
client; no storage or network effect. -/
def build_http (s : AuthState) : AuthState :=
  { s with http := true }

/-- Embeds Refresh (auth.py lines 743-763). -/
def Refresh (o : Oracle) (s : AuthState) : Res Unit :=
  match s.credentials with
  | none => ⟨Except.error (PyErr.refreshError "No credential to refresh."), s, []⟩
  | some c =>
    if c.refresh_token = none ∧ s.auth_method ≠ some "service" then
      ⟨Except.error (PyErr.refreshError
          "No refresh_token found.Please set access_type of OAuth to offline."),
        s, []⟩
    else
      let s1 := if s.http then s else build_http s
      if o.refresh_ok then
        ⟨Except.ok (),
          { s1 with credentials := some { c with token_expiry := o.refresh_expiry } },
          [Effect.network "refresh"]⟩
      else
        ⟨Except.error (PyErr.refreshError
            (String.append "Access token refresh failed: " o.refresh_err)),
          s1, [Effect.network "refresh"]⟩

/-- Embeds Authorize (auth.py lines 825-840): raise when the token is
expired, otherwise wrap the transport and build the drive service. -/
def Authorize (o : Oracle) (s : AuthState) : Res Unit :=
  if access_token_expired s o.now then
    ⟨Except.error (PyErr.authenticationError
        "No valid credentials provided to authorize"), s, []⟩
  else
    let s1 := if s.http then s else build_http s
    ⟨Except.ok (), { s1 with service := true },
      [Effect.network "discovery_build"]⟩

/-- Settings mirroring DEFAULT_SETTINGS of auth.py. -/
def baseSettings : Settings :=
  { client_config_backend := some "file"
  , client_config_file := some "client_secrets.json"
  , save_credentials := some false
  , save_credentials_backend := none
  , oauth_scope := some ["https://www.googleapis.com/auth/drive"]
  , get_refresh_token := none
  , service_config := none
  , client_config_map := none }

/-- Freshly constructed GoogleAuth instance with default settings. -/
def baseState : AuthState :=
  { settings := baseSettings
  , client_config := []
  , flow := none
  , credentials := none
  , http := false
  , service := false
  , auth_method := none
  , storages := ⟨none, none, none⟩
  , default_storage := none }

/-- Benign oracle used by concrete witnesses. -/
def baseOracle : Oracle :=
  { now := 0
  , refresh_ok := true
  , refresh_err := "invalid_grant"
  , refresh_expiry := 100
  , exchange_ok := true
  , exchange_err := "bad code"
  , exchange_refresh_token := some "rtok"
  , exchange_expiry := 100
  , port_binds := fun _ => true
  , query_params := [("code", "abc123")]
  , input_code := "clicode"
  , device_code := some ("https://verify", "USER-CODE", "devcode")
  , token_status := 200
  , token_access := "atok"
  , token_refresh := "rtok"
  , token_expiry_val := 100
  , service_cred_expiry := 100
  , cs_content := some ("installed",
      { client_id := some "cid"
      , client_secret := some "csec"
      , auth_uri := some "https://accounts.google.com/o/oauth2/auth"
      , token_uri := some "https://oauth2.googleapis.com/token"
      , redirect_uris := some ["http://localhost:8080/"]
      , revoke_uri := none
      , client_email := none }) }

/-- Map the value of a Res, keeping state and trace. -/
def Res.mapVal {α β : Type} (r : Res α) (f : α → β) : Res β :=
  ⟨r.result.map f, r.state, r.trace⟩

/-- Python truthiness of an optional dict lookup result (absent is falsy). -/
def truthyOpt (v : Option PyVal) : Bool :=
  match v with
  | none => false
  | some pv => pv.truthy

/-- Truthiness of the optional save_credentials settings value. -/
def truthyOptBool (b : Option Bool) : Bool :=
  match b with
  | none => false
  | some bv => bv

/-- Python string value of a stored PyVal, none when the stored value was
None.  auth.py only ever stores strings or None in the fields this reads. -/
def pvToOpt : PyVal → Option String
  | PyVal.str v => some v
  | _ => none

/-- Lookup in the query parameters of the redirect request. -/
def qlookup (q : List (String × String)) (k : String) : Option String :=
  (q.find? (fun p => p.fst = k)).map Prod.snd

/-- Embeds oauth2client scopes_to_string on a list of scopes: the scopes
joined with single spaces.  Applying it to an absent (None) settings value
raises TypeError, which callers model at the call site. -/
def scopes_to_string (l : List String) : String :=
  String.intercalate " " l

/-- Modelled from the spec: the first-step authorization URL produced by
the wrapped flow object (step1_get_authorize_url). -/
def step1_get_authorize_url (f : Flow) : String :=
  String.append (f.auth_uri.getD "")
    (String.append "?client_id=" (f.client_id.getD ""))

/-- CLIENT_CONFIGS_LIST class constant of GoogleAuth (auth.py 164-171). -/
def CLIENT_CONFIGS_LIST : List String :=
  ["client_id", "client_secret", "auth_uri", "token_uri", "revoke_uri",
    "redirect_uri"]

/-- Initial value of the SERVICE_CONFIGS_LIST class constant (auth.py 172).
The list is class-level mutable state, so the embedding threads its
current value explicitly through the functions that read or grow it. -/
def SERVICE_CONFIGS_LIST_init : List String := ["client_user_email"]

/-- Whether service_config holds a truthy value at the key. -/
def serviceKeyTruthy (sc : StrMap) (k : String) : Bool :=
  truthyOpt (StrMap.get sc k)

/-- Copy loop shared by the settings-based config loaders: assign
client_config[k] := src[k] for each key in order, raising the loader error
on the first absent key; assignments made before the failure remain. -/
def copyConfigs (src : StrMap) (mkErr : String → PyErr) :
    List String → StrMap → StrMap × Option PyErr
  | [], cc => (cc, none)
  | k :: rest, cc =>
    match StrMap.get src k with
    | none => (cc, some (mkErr k))
    | some v => copyConfigs src mkErr rest (StrMap.set cc k v)

/-- Embeds LoadServiceConfigSettings (auth.py lines 666-698).  Takes and
returns the current SERVICE_CONFIGS_LIST: the first service key whose
settings value is truthy is copied into client_config (priority order
client_json_file_path, client_json_dict, client_json,
client_pkcs12_file_path); if none is truthy InvalidConfigError is raised;
if the chosen key is client_pkcs12_file_path, "client_service_email" is
appended to the class-level list; finally every key of the (possibly
grown) list is copied from service_config, an absent key raising
InvalidConfigError. -/
def LoadServiceConfigSettings (scl : List String) (s : AuthState) :
    Res Unit × List String :=
  match s.settings.service_config with
  | none => (⟨Except.error (PyErr.keyError "service_config"), s, []⟩, scl)
  | some sc =>
    let configs : List String :=
      ["client_json_file_path", "client_json_dict", "client_json",
        "client_pkcs12_file_path"]
    match configs.find? (fun k => serviceKeyTruthy sc k) with
    | none =>
      (⟨Except.error (PyErr.invalidConfigError
          "One of client_json_file_path, client_json_dict, client_json, client_pkcs12_file_path is required for service authentication"),
        s, []⟩, scl)
    | some k =>
      let v := (StrMap.get sc k).getD PyVal.pynone
      let cc1 := StrMap.set s.client_config k v
      let scl1 :=
        if k = "client_pkcs12_file_path" then
          scl ++ ["client_service_email"]
        else scl
      match copyConfigs sc
          (fun missing => PyErr.invalidConfigError (String.append
            "Insufficient service config in settings\n\nMissing: "
            (String.append missing " key.")))
          scl1 cc1 with
      | (cc2, none) => (⟨Except.ok (), { s with client_config := cc2 }, []⟩, scl1)
      | (cc2, some e) => (⟨Except.error e, { s with client_config := cc2 }, []⟩, scl1)

/-- Modelled from the spec: oauth2client.clientsecrets.loadfile — parses
the client-secrets file into its single (client type, field dict) entry,
raising InvalidClientSecretsError on malformed content, on a client type
other than web/installed, or when one of the required fields client_id,
client_secret, redirect_uris, auth_uri, token_uri is absent. -/
def clientsecrets_loadfile (content : Option (String × ClientInfo)) :
    Except PyErr (String × ClientInfo) :=
  match content with
  | none => Except.error (PyErr.invalidClientSecretsError "Invalid file format.")
  | some (t, info) =>
    if t ≠ "web" ∧ t ≠ "installed" then
      Except.error (PyErr.invalidClientSecretsError
        (String.append "Unknown client type: " t))
    else if info.client_id = none then
      Except.error (PyErr.invalidClientSecretsError "Missing property client_id")
    else if info.client_secret = none then
      Except.error (PyErr.invalidClientSecretsError "Missing property client_secret")
    else if info.redirect_uris = none then
      Except.error (PyErr.invalidClientSecretsError "Missing property redirect_uris")
    else if info.auth_uri = none then
      Except.error (PyErr.invalidClientSecretsError "Missing property auth_uri")
    else if info.token_uri = none then
      Except.error (PyErr.invalidClientSecretsError "Missing property token_uri")
    else Except.ok (t, info)

/-- Embeds LoadClientConfigFile (auth.py lines 615-664) for the default
call (client_config_file taken from the settings; the optional explicit
path parameter is exercised by no claim).  The file content is supplied by
the oracle; reading it is a fileRead effect.  InvalidClientSecretsError
from the parser is re-raised as InvalidConfigError; an unknown client type
raises InvalidConfigError; the general fields are copied with KeyError
folded to InvalidConfigError; revoke_uri is copied with .get (absent
stores None); redirect_uri is the first element of redirect_uris, and an
empty list raises IndexError, which is not caught (only KeyError is);
client_email is optional. -/
def LoadClientConfigFile (o : Oracle) (s : AuthState) : Res Unit :=
  match s.settings.client_config_file with
  | none => ⟨Except.error (PyErr.keyError "client_config_file"), s, []⟩
  | some path =>
    match clientsecrets_loadfile o.cs_content with
    | Except.error (PyErr.invalidClientSecretsError m) =>
      ⟨Except.error (PyErr.invalidConfigError
          (String.append "Invalid client secrets file " m)),
        s, [Effect.fileRead path]⟩
    | Except.error e => ⟨Except.error e, s, [Effect.fileRead path]⟩
    | Except.ok (ctype, info) =>
      if ctype ≠ "web" ∧ ctype ≠ "installed" then
        ⟨Except.error (PyErr.invalidConfigError
            "Unknown client_type of client config file"),
          s, [Effect.fileRead path]⟩
      else
        match info.client_id, info.client_secret, info.auth_uri,
            info.token_uri with
        | some cid, some csec, some au, some tu =>
          let cc := StrMap.set (StrMap.set (StrMap.set (StrMap.set
            s.client_config "client_id" (PyVal.str cid))
            "client_secret" (PyVal.str csec))
            "auth_uri" (PyVal.str au))
            "token_uri" (PyVal.str tu)
          let cc := StrMap.set cc "revoke_uri"
            (match info.revoke_uri with
             | some r => PyVal.str r
             | none => PyVal.pynone)
          match info.redirect_uris with
          | some (r0 :: _) =>
            let cc := StrMap.set cc "redirect_uri" (PyVal.str r0)
            let cc :=
              match info.client_email with
              | some e => StrMap.set cc "client_email" (PyVal.str e)
              | none => cc
            ⟨Except.ok (), { s with client_config := cc }, [Effect.fileRead path]⟩
          | some [] =>
            ⟨Except.error PyErr.indexError, { s with client_config := cc },
              [Effect.fileRead path]⟩
          | none =>
            ⟨Except.error (PyErr.invalidConfigError
                "Insufficient client config in file"),
              { s with client_config := cc }, [Effect.fileRead path]⟩
        | _, _, _, _ =>
          ⟨Except.error (PyErr.invalidConfigError
              "Insufficient client config in file"),
            s, [Effect.fileRead path]⟩

/-- Embeds LoadClientConfigSettings (auth.py lines 700-713): copies every
CLIENT_CONFIGS_LIST key from settings["client_config"]; any KeyError
(including the settings key itself being absent) becomes
InvalidConfigError. -/
def LoadClientConfigSettings (s : AuthState) : Res Unit :=
  match s.settings.client_config_map with
  | none =>
    ⟨Except.error (PyErr.invalidConfigError
        "Insufficient client config in settings"), s, []⟩
  | some m =>
    match copyConfigs m
        (fun _ => PyErr.invalidConfigError
          "Insufficient client config in settings")
        CLIENT_CONFIGS_LIST s.client_config with
    | (cc, none) => ⟨Except.ok (), { s with client_config := cc }, []⟩
    | (cc, some e) => ⟨Except.error e, { s with client_config := cc }, []⟩

/-- Embeds LoadClientConfig (auth.py lines 590-613) for the default call
(backend resolved from the settings). -/
def LoadClientConfig (o : Oracle) (scl : List String) (s : AuthState) :
    Res Unit × List String :=
  match s.settings.client_config_backend with
  | none =>
    (⟨Except.error (PyErr.invalidConfigError
        "Please specify client config backend"), s, []⟩, scl)
  | some b =>
    if b = "file" then (LoadClientConfigFile o s, scl)
    else if b = "settings" then (LoadClientConfigSettings s, scl)
    else if b = "service" then LoadServiceConfigSettings scl s
    else
      (⟨Except.error (PyErr.invalidConfigError
          "Unknown client_config_backend"), s, []⟩, scl)

/-- Embeds GetFlow (auth.py lines 715-741): ensure the client config holds
every CLIENT_CONFIGS_LIST key (loading it otherwise), then build the
OAuth2WebServerFlow from client_config and the oauth_scope setting;
get_refresh_token forces offline access with a consent prompt.  Subscript
lookups raise KeyError when the key is absent. -/
def GetFlow (o : Oracle) (scl : List String) (s : AuthState) :
    Res Unit × List String :=
  let (r1, scl1) :=
    if ¬ (CLIENT_CONFIGS_LIST.all (fun k => StrMap.hasKey s.client_config k)) then
      LoadClientConfig o scl s
    else (⟨Except.ok (), s, []⟩, scl)
  match r1.result with
  | Except.error e => (⟨Except.error e, r1.state, r1.trace⟩, scl1)
  | Except.ok _ =>
    let s1 := r1.state
    match StrMap.get s1.client_config "redirect_uri",
        StrMap.get s1.client_config "auth_uri",
        StrMap.get s1.client_config "token_uri",
        StrMap.get s1.client_config "revoke_uri",
        StrMap.get s1.client_config "client_id",
        StrMap.get s1.client_config "client_secret" with
    | some ru, some au, some tu, some rv, some ci, some cs =>
      match s1.settings.oauth_scope with
      | none => (⟨Except.error (PyErr.keyError "oauth_scope"), s1, r1.trace⟩, scl1)
      | some scopes =>
        let f : Flow :=
          { client_id := pvToOpt ci
          , client_secret := pvToOpt cs
          , scope := some (scopes_to_string scopes)
          , redirect_uri := pvToOpt ru
          , auth_uri := pvToOpt au
          , token_uri := pvToOpt tu
          , revoke_uri := pvToOpt rv
          , user_agent := none
          , offline_access := truthyOptBool s1.settings.get_refresh_token }
        (⟨Except.ok (), { s1 with flow := some f }, r1.trace⟩, scl1)
    | _, _, _, _, _, _ =>
      (⟨Except.error (PyErr.keyError "client config field"), s1, r1.trace⟩, scl1)

/-- Modelled from the spec: ServiceAccountCredentials.from_json_keyfile_dict
constructs a service credential directly from the inline key dict. -/
def from_json_keyfile_dict (o : Oracle) (d : List (String × String)) : Credential :=
  { refresh_token := none
  , token_expiry := o.service_cred_expiry
  , store := none
  , source := CredSource.jsonKeyfileDict d }

/-- Modelled from the spec: ServiceAccountCredentials.from_json_keyfile_name
constructs a service credential by reading the named key file (the caller
records the fileRead effect). -/
def from_json_keyfile_name (o : Oracle) (filename : String) : Credential :=
  { refresh_token := none
  , token_expiry := o.service_cred_expiry
  , store := none
  , source := CredSource.jsonKeyfileName filename }

/-- Modelled from the spec: ServiceAccountCredentials.from_p12_keyfile
constructs a service credential from a PKCS12 file and service email (the
caller records the fileRead effect). -/
def from_p12_keyfile (o : Oracle) (email : String) (filename : String) : Credential :=
  { refresh_token := none
  , token_expiry := o.service_cred_expiry
  , store := none
  , source := CredSource.p12Keyfile email filename }

/-- Modelled from the spec: stdlib json.loads applied to the inline key
JSON string, which is parsed to a key dict.  The parse is abstracted as an
injective embedding of the JSON text; this is faithful at this interface
because auth.py passes the resulting dict opaquely to the credential
constructor. -/
def json_loads (js : String) : List (String × String) := [("json", js)]

/-- Embeds auth.py lines 370-376 of ServiceAuth: read the three JSON key
material fields from client_config and, when no dict is present but an
inline JSON string is, parse the string to a dict (json.loads raises
TypeError on a non-string value). -/
def parseInlineJson (cc : StrMap) : Except PyErr (Option PyVal) :=
  let keyfile_dict0 := StrMap.get cc "client_json_dict"
  let keyfile_json := StrMap.get cc "client_json"
  if ¬ truthyOpt keyfile_dict0 ∧ truthyOpt keyfile_json then
    match keyfile_json with
    | some (PyVal.str js) => Except.ok (some (PyVal.dict (json_loads js)))
    | _ => Except.error (PyErr.typeError "the JSON object must be str")
  else Except.ok keyfile_dict0

/-- Embeds auth.py lines 378-397 of ServiceAuth: construct the credential
from the first available key material — the (possibly parsed) dict, else
the key file path, else the PKCS12 path + service email — together with
the file reads that construction performs. -/
def resolveServiceKeyMaterial (o : Oracle) (cc : StrMap)
    (keyfile_dict : Option PyVal) : Except PyErr (Credential × List Effect) :=
  let keyfile_name := StrMap.get cc "client_json_file_path"
  if truthyOpt keyfile_dict then
    match keyfile_dict with
    | some (PyVal.dict d) => Except.ok (from_json_keyfile_dict o d, [])
    | _ => Except.error (PyErr.typeError "keyfile dict is not a dict")
  else if truthyOpt keyfile_name then
    match keyfile_name with
    | some (PyVal.str fn) =>
      Except.ok (from_json_keyfile_name o fn, [Effect.fileRead fn])
    | _ => Except.error (PyErr.typeError "keyfile name is not a str")
  else
    match StrMap.get cc "client_service_email" with
    | none => Except.error (PyErr.keyError "client_service_email")
    | some se =>
      match StrMap.get cc "client_pkcs12_file_path" with
      | none => Except.error (PyErr.keyError "client_pkcs12_file_path")
      | some fp =>
        match pvToOpt se, pvToOpt fp with
        | some se2, some fp2 =>
          Except.ok (from_p12_keyfile o se2 fp2, [Effect.fileRead fp2])
        | _, _ => Except.error (PyErr.typeError "p12 arguments")

/-- Embeds the body of ServiceAuth (auth.py lines 361-403), without its
CheckServiceAuth decorator.  Threads the class-level SERVICE_CONFIGS_LIST.
Key material already present in client_config is resolved in priority
order inline dict, inline JSON string (parsed to a dict), key file path,
then PKCS12 file + service email; an end-user email yields a delegated
credential. -/
def ServiceAuthBody (o : Oracle) (scl : List String) (s : AuthState) :
    Res Unit × List String :=
  let (r1, scl1) :=
    if scl.any (fun k => ¬ StrMap.hasKey s.client_config k) then
      LoadServiceConfigSettings scl s
    else (⟨Except.ok (), s, []⟩, scl)
  match r1.result with
  | Except.error e => (⟨Except.error e, r1.state, r1.trace⟩, scl1)
  | Except.ok _ =>
    let s1 := r1.state
    match s1.settings.oauth_scope with
    | none => (⟨Except.error (PyErr.keyError "oauth_scope"), s1, r1.trace⟩, scl1)
    | some _scopes =>
      match parseInlineJson s1.client_config with
      | Except.error e => (⟨Except.error e, s1, r1.trace⟩, scl1)
      | Except.ok keyfile_dict =>
        match resolveServiceKeyMaterial o s1.client_config keyfile_dict with
        | Except.error e => (⟨Except.error e, s1, r1.trace⟩, scl1)
        | Except.ok (cred0, eff) =>
          let user_email := StrMap.get s1.client_config "client_user_email"
          let cred :=
            if truthyOpt user_email then
              match user_email with
              | some (PyVal.str u) =>
                { cred0 with source := CredSource.delegated u cred0.source }
              | _ => cred0
            else cred0
          (⟨Except.ok (), { s1 with credentials := some cred },
            r1.trace ++ eff⟩, scl1)

/-- Embeds the body of DeviceAuth (auth.py lines 314-359), without its
CheckAuth decorator.  Mirrors the source order: assign flow.client_id,
then flow.scope via scopes_to_string — where an absent oauth_scope makes
scopes_to_string raise TypeError before the InvalidConfigError checks can
run — then the two config checks, then the device-code request and the
token-endpoint post.  GetDeviceCode is inlined because flow is known
non-None at its call site, making it exactly the
step1_get_device_and_user_codes network call. -/
def DeviceAuthBody (o : Oracle) (s : AuthState) : Res Unit :=
  match s.flow with
  | none => ⟨Except.error (PyErr.attributeError "flow"), s, []⟩
  | some f =>
    let cid : Option String :=
      match StrMap.get s.client_config "client_id" with
      | some pv => pvToOpt pv
      | none => none
    let f1 := { f with client_id := cid }
    match s.settings.oauth_scope with
    | none =>
      ⟨Except.error (PyErr.typeError "can only join an iterable"),
        { s with flow := some f1 }, []⟩
    | some scopes =>
      let f2 := { f1 with scope := some (scopes_to_string scopes) }
      let s2 := { s with flow := some f2 }
      if f2.client_id = none then
        ⟨Except.error (PyErr.invalidConfigError
            "client_id is required for Device Authentication"), s2, []⟩
      else if f2.scope = none then
        ⟨Except.error (PyErr.invalidConfigError
            "oauth_scope is required for Device Authentication"), s2, []⟩
      else
        match o.device_code with
        | none => ⟨Except.error PyErr.deviceCodeError, s2,
            [Effect.network "device_code"]⟩
        | some (_vurl, _ucode, _dcode) =>
          let t2 := [Effect.network "device_code", Effect.consoleOut,
            Effect.consoleOut, Effect.consoleIn, Effect.network "token"]
          if o.token_status ≠ 200 then
            ⟨Except.error (PyErr.authenticationError
                "Failed to get access token"), s2, t2⟩
          else
            let cred : Credential :=
              { refresh_token := some o.token_refresh
              , token_expiry := o.token_expiry_val
              , store := none
              , source := CredSource.deviceToken o.token_access }
            ⟨Except.ok (), { s2 with credentials := some cred }, t2⟩

/-- Embeds the body of LocalWebserverAuth (auth.py lines 219-297), without
its CheckAuth decorator.  The first port of the candidate list that binds
hosts the redirect listener; none binding raises AuthenticationError after
console guidance.  After serving exactly one redirect request, an "error"
query parameter raises AuthenticationRejected, a "code" parameter is
returned, and neither raises AuthenticationError.  GetAuthUrl is inlined
because flow is known non-None at its call site.  The bind_addr parameter
only selects the listening interface and is absorbed into the port_binds
oracle. -/
def LocalWebserverAuthBody (o : Oracle) (host_name : String)
    (port_numbers : Option (List Nat)) (launch_browser : Bool)
    (s : AuthState) : Res String :=
  let ports := port_numbers.getD [8080, 8090]
  match ports.find? (fun p => o.port_binds p) with
  | none =>
    ⟨Except.error (PyErr.authenticationError ""), s,
      [Effect.consoleOut, Effect.consoleOut, Effect.consoleOut]⟩
  | some port_number =>
    match s.flow with
    | none => ⟨Except.error (PyErr.attributeError "flow"), s, []⟩
    | some f =>
      let oauth_callback := String.append "http://" (String.append host_name
        (String.append ":" (String.append (toString port_number) "/")))
      let f1 := { f with redirect_uri := some oauth_callback }
      let s1 := { s with flow := some f1 }
      let authorize_url := step1_get_authorize_url f1
      let t0 := if launch_browser then
          [Effect.browserOpen authorize_url, Effect.consoleOut]
        else [Effect.consoleOut]
      let t1 := t0 ++ [Effect.consoleOut, Effect.servedRedirect]
      if (qlookup o.query_params "error").isSome then
        ⟨Except.error (PyErr.authenticationRejected
            "User rejected authentication"), s1, t1 ++ [Effect.consoleOut]⟩
      else
        match qlookup o.query_params "code" with
        | some code => ⟨Except.ok code, s1, t1⟩
        | none =>
          ⟨Except.error (PyErr.authenticationError "No code found in redirect"),
            s1, t1 ++ [Effect.consoleOut, Effect.consoleOut]⟩

/-- Embeds the body of CommandLineAuth (auth.py lines 299-312), without
its CheckAuth decorator: set the out-of-band redirect URI, print the
authorization URL, read and strip a code from the console. -/
def CommandLineAuthBody (o : Oracle) (s : AuthState) : Res String :=
  match s.flow with
  | none => ⟨Except.error (PyErr.attributeError "flow"), s, []⟩
  | some f =>
    let f1 := { f with redirect_uri := some "urn:ietf:wg:oauth:2.0:oob" }
    let s1 := { s with flow := some f1 }
    ⟨Except.ok o.input_code.trim, s1, [Effect.consoleOut, Effect.consoleIn]⟩

/-- Embeds Authenticate (auth.py lines 795-808): ensure a flow, exchange
the code (network), FlowExchangeError becomes AuthenticationError. -/
def Authenticate (o : Oracle) (scl : List String) (code : String)
    (s : AuthState) : Res Unit × List String :=
  let (r1, scl1) :=
    if s.flow = none then GetFlow o scl s else (⟨Except.ok (), s, []⟩, scl)
  match r1.result with
  | Except.error e => (⟨Except.error e, r1.state, r1.trace⟩, scl1)
  | Except.ok _ =>
    let s1 := r1.state
    if o.exchange_ok then
      let cred : Credential :=
        { refresh_token := o.exchange_refresh_token
        , token_expiry := o.exchange_expiry
        , store := none
        , source := CredSource.exchanged code }
      (⟨Except.ok (), { s1 with credentials := some cred },
        r1.trace ++ [Effect.network "token_exchange", Effect.consoleOut]⟩, scl1)
    else
      (⟨Except.error (PyErr.authenticationError
          (String.append "OAuth2 code exchange failed: " o.exchange_err)),
        s1, r1.trace ++ [Effect.network "token_exchange"]⟩, scl1)

/-- Embeds Auth (auth.py lines 785-793): Authenticate then Authorize. -/
def Auth (o : Oracle) (scl : List String) (code : String) (s : AuthState) :
    Res Unit × List String :=
  let (r1, scl1) := Authenticate o scl code s
  match r1.result with
  | Except.error _ => (r1, scl1)
  | Except.ok _ =>
    let r2 := Authorize o r1.state
    (⟨r2.result, r2.state, r1.trace ++ r2.trace⟩, scl1)

/-- Embeds LoadCredentialsFile (auth.py lines 465-493) for the default
call (the optional explicit credentials_file parameter is exercised by no
claim): bind the default storage to the file backend, translate the
symlink OSError to InvalidCredentialsError, load the stored credential if
any and bind its store. -/
def LoadCredentialsFile (s : AuthState) : Res Unit :=
  match s.storages.file with
  | none =>
    ⟨Except.error (PyErr.invalidConfigError
        "Backend `file` is not configured, specify credentials file to read in the settings file or pass an explicit value"),
      { s with default_storage := none }, []⟩
  | some fs =>
    let s1 := { s with default_storage := some "file" }
    if fs.is_symlink then
      ⟨Except.error (PyErr.invalidCredentialsError
          "Credentials file cannot be symbolic link"),
        s1, [Effect.storageGet "file"]⟩
    else
      match fs.stored with
      | none => ⟨Except.ok (), { s1 with credentials := none },
          [Effect.storageGet "file"]⟩
      | some c =>
        ⟨Except.ok (),
          { s1 with credentials := some { c with store := some "file" } },
          [Effect.storageGet "file"]⟩

/-- Embeds _LoadCredentialsDictionary (auth.py lines 495-506). -/
def LoadCredentialsDictionary (s : AuthState) : Res Unit :=
  match s.storages.dictionary with
  | none =>
    ⟨Except.error (PyErr.invalidConfigError
        "Backend `dictionary` is not configured, specify credentials dict and key to read in the settings file"),
      { s with default_storage := none }, []⟩
  | some ds =>
    let s1 := { s with default_storage := some "dictionary" }
    match ds.stored with
    | none => ⟨Except.ok (), { s1 with credentials := none },
        [Effect.storageGet "dictionary"]⟩
    | some c =>
      ⟨Except.ok (),
        { s1 with credentials := some { c with store := some "dictionary" } },
        [Effect.storageGet "dictionary"]⟩

/-- Embeds LoadCredentialsRedis (auth.py lines 508-519).  The _storages
dict has no "redis" key unless the redis backend was configured, so the
subscript raises KeyError in that case (the None check on the next source
line is unreachable). -/
def LoadCredentialsRedis (s : AuthState) : Res Unit :=
  match s.storages.redis with
  | none => ⟨Except.error (PyErr.keyError "redis"), s, []⟩
  | some rs =>
    let s1 := { s with default_storage := some "redis" }
    match rs.stored with
    | none => ⟨Except.ok (), { s1 with credentials := none },
        [Effect.storageGet "redis"]⟩
    | some c =>
      ⟨Except.ok (),
        { s1 with credentials := some { c with store := some "redis" } },
        [Effect.storageGet "redis"]⟩

/-- Embeds LoadCredentials (auth.py lines 445-463) for the default call
(backend resolved from the settings). -/
def LoadCredentials (s : AuthState) : Res Unit :=
  match s.settings.save_credentials_backend with
  | none =>
    ⟨Except.error (PyErr.invalidConfigError
        "Please specify credential backend"), s, []⟩
  | some b =>
    if b = "file" then LoadCredentialsFile s
    else if b = "dictionary" then LoadCredentialsDictionary s
    else if b = "redis" then LoadCredentialsRedis s
    else
      ⟨Except.error (PyErr.invalidConfigError
          "Unknown save_credentials_backend"), s, []⟩

/-- Embeds SaveCredentialsFile (auth.py lines 549-575) for the default
call: a missing credential raises InvalidCredentialsError before any
storage is touched; the symlink OSError from put becomes
InvalidCredentialsError. -/
def SaveCredentialsFile (s : AuthState) : Res Unit :=
  match s.credentials with
  | none =>
    ⟨Except.error (PyErr.invalidCredentialsError "No credentials to save"),
      s, []⟩
  | some c =>
    match s.storages.file with
    | none =>
      ⟨Except.error (PyErr.invalidConfigError
          "Backend `file` is not configured, specify credentials file to read in the settings file or pass an explicit value"),
        s, []⟩
    | some fs =>
      if fs.is_symlink then
        ⟨Except.error (PyErr.invalidCredentialsError
            "Credentials file cannot be symbolic link"),
          s, [Effect.storagePut "file" (some c)]⟩
      else
        ⟨Except.ok (),
          { s with storages :=
              { s.storages with file := some { fs with stored := some c } } },
          [Effect.storagePut "file" (some c)]⟩

/-- Embeds _SaveCredentialsDictionary (auth.py lines 577-588): a missing
credential raises InvalidCredentialsError before any storage is touched. -/
def SaveCredentialsDictionary (s : AuthState) : Res Unit :=
  match s.credentials with
  | none =>
    ⟨Except.error (PyErr.invalidCredentialsError "No credentials to save"),
      s, []⟩
  | some c =>
    match s.storages.dictionary with
    | none =>
      ⟨Except.error (PyErr.invalidConfigError
          "Backend `dictionary` is not configured, specify credentials dict and key to write in the settings file"),
        s, []⟩
    | some ds =>
      ⟨Except.ok (),
        { s with storages :=
            { s.storages with dictionary := some { ds with stored := some c } } },
        [Effect.storagePut "dictionary" (some c)]⟩

/-- Embeds SaveCredentialsRedis (auth.py lines 544-547): no missing
credential check — storage.put is called on whatever credential is held,
including None.  The _storages subscript raises KeyError when the redis
backend was never configured. -/
def SaveCredentialsRedis (s : AuthState) : Res Unit :=
  match s.storages.redis with
  | none => ⟨Except.error (PyErr.keyError "redis"), s, []⟩
  | some rs =>
    ⟨Except.ok (),
      { s with storages :=
          { s.storages with redis := some { rs with stored := s.credentials } } },
      [Effect.storagePut "redis" s.credentials]⟩

/-- Embeds SaveCredentials (auth.py lines 521-542) for the default call
(backend resolved from the settings). -/
def SaveCredentials (s : AuthState) : Res Unit :=
  match s.settings.save_credentials_backend with
  | none =>
    ⟨Except.error (PyErr.invalidConfigError
        "Please specify credential backend"), s, []⟩
  | some b =>
    if b = "file" then SaveCredentialsFile s
    else if b = "dictionary" then SaveCredentialsDictionary s
    else if b = "redis" then SaveCredentialsRedis s
    else
      ⟨Except.error (PyErr.invalidConfigError
          "Unknown save_credentials_backend"), s, []⟩

/-- Embeds the CheckAuth decorator (auth.py lines 119-147) applied to a
decoratee returning an optional authorization code: load persisted
credentials only when none are held and save_credentials is truthy; ensure
a flow; run the decoratee (or Refresh) as the source dictates, tracking
the dirty bit; exchange any returned code; bind the default store; save
only when dirty and save_credentials is truthy. -/
def CheckAuth (o : Oracle) (decoratee : AuthState → Res (Option String))
    (scl : List String) (s : AuthState) : Res Unit × List String :=
  let save_credentials := truthyOptBool s.settings.save_credentials
  let r1 : Res Unit :=
    if s.credentials = none ∧ save_credentials then LoadCredentials s
    else ⟨Except.ok (), s, []⟩
  match r1.result with
  | Except.error e => (⟨Except.error e, r1.state, r1.trace⟩, scl)
  | Except.ok _ =>
    let s1 := r1.state
    let (r2, scl1) :=
      if s1.flow = none then GetFlow o scl s1 else (⟨Except.ok (), s1, []⟩, scl)
    match r2.result with
    | Except.error e => (⟨Except.error e, r2.state, r1.trace ++ r2.trace⟩, scl1)
    | Except.ok _ =>
      let s2 := r2.state
      let t2 := r1.trace ++ r2.trace
      let rd : Res (Option String) × Bool :=
        match s2.credentials with
        | none => (decoratee s2, true)
        | some c =>
          if access_token_expired s2 o.now then
            if c.refresh_token ≠ none then
              (Res.mapVal (Refresh o s2) (fun _ => (none : Option String)), true)
            else (decoratee s2, true)
          else (⟨Except.ok none, s2, []⟩, false)
      match rd.1.result with
      | Except.error e => (⟨Except.error e, rd.1.state, t2 ++ rd.1.trace⟩, scl1)
      | Except.ok code =>
        let s3 := rd.1.state
        let t3 := t2 ++ rd.1.trace
        let (r4, scl2) :=
          match code with
          | some cd => Auth o scl1 cd s3
          | none => (⟨Except.ok (), s3, []⟩, scl1)
        match r4.result with
        | Except.error e => (⟨Except.error e, r4.state, t3 ++ r4.trace⟩, scl2)
        | Except.ok _ =>
          let s4 := r4.state
          let t4 := t3 ++ r4.trace
          match s4.credentials with
          | none =>
            (⟨Except.error (PyErr.attributeError
                "NoneType has no attribute set_store"), s4, t4⟩, scl2)
          | some c =>
            let s5 := { s4 with
              credentials := some { c with store := s4.default_storage } }
            if rd.2 ∧ save_credentials then
              let r6 := SaveCredentials s5
              (⟨r6.result, r6.state, t4 ++ r6.trace⟩, scl2)
            else (⟨Except.ok (), s5, t4⟩, scl2)

/-- Embeds the CheckServiceAuth decorator (auth.py lines 95-116) applied
to the ServiceAuth body: set auth_method, load persisted credentials only
when none are held and save_credentials is truthy, run the body and
Authorize when no credential is held, Refresh when the held one expired,
bind the default store, save only when dirty and save_credentials is
truthy. -/
def CheckServiceAuth (o : Oracle) (scl : List String) (s : AuthState) :
    Res Unit × List String :=
  let s0 := { s with auth_method := some "service" }
  let save_credentials := truthyOptBool s0.settings.save_credentials
  let r1 : Res Unit :=
    if s0.credentials = none ∧ save_credentials then LoadCredentials s0
    else ⟨Except.ok (), s0, []⟩
  match r1.result with
  | Except.error e => (⟨Except.error e, r1.state, r1.trace⟩, scl)
  | Except.ok _ =>
    let s1 := r1.state
    let step : Res Unit × List String × Bool :=
      match s1.credentials with
      | none =>
        let (rb, sclb) := ServiceAuthBody o scl s1
        match rb.result with
        | Except.error e => (⟨Except.error e, rb.state, rb.trace⟩, sclb, true)
        | Except.ok _ =>
          let ra := Authorize o rb.state
          (⟨ra.result, ra.state, rb.trace ++ ra.trace⟩, sclb, true)
      | some _ =>
        if access_token_expired s1 o.now then (Refresh o s1, scl, true)
        else (⟨Except.ok (), s1, []⟩, scl, false)
    match step.1.result with
    | Except.error e =>
      (⟨Except.error e, step.1.state, r1.trace ++ step.1.trace⟩, step.2.1)
    | Except.ok _ =>
      let s2 := step.1.state
      let t2 := r1.trace ++ step.1.trace
      match s2.credentials with
      | none =>
        (⟨Except.error (PyErr.attributeError
            "NoneType has no attribute set_store"), s2, t2⟩, step.2.1)
      | some c =>
        let s3 := { s2 with
          credentials := some { c with store := s2.default_storage } }
        if step.2.2 ∧ save_credentials then
          let r6 := SaveCredentials s3
          (⟨r6.result, r6.state, t2 ++ r6.trace⟩, step.2.1)
        else (⟨Except.ok (), s3, t2⟩, step.2.1)

/-- Embeds LocalWebserverAuth as called (CheckAuth around its body, with
the default arguments). -/
def LocalWebserverAuth (o : Oracle) (scl : List String) (s : AuthState) :
    Res Unit × List String :=
  CheckAuth o
    (fun st => Res.mapVal (LocalWebserverAuthBody o "localhost" none true st) some)
    scl s

/-- Embeds CommandLineAuth as called (CheckAuth around its body). -/
def CommandLineAuth (o : Oracle) (scl : List String) (s : AuthState) :
    Res Unit × List String :=
  CheckAuth o (fun st => Res.mapVal (CommandLineAuthBody o st) some) scl s

/-- Embeds DeviceAuth as called (CheckAuth around its body; the body
returns no code). -/
def DeviceAuth (o : Oracle) (scl : List String) (s : AuthState) :
    Res Unit × List String :=
  CheckAuth o
    (fun st => Res.mapVal (DeviceAuthBody o st) (fun _ => (none : Option String)))
    scl s

/-- Embeds ServiceAuth as called (CheckServiceAuth around its body). -/
def ServiceAuth (o : Oracle) (scl : List String) (s : AuthState) :
    Res Unit × List String :=
  CheckServiceAuth o scl s

/-- A flow as GetFlow would build it from the default client secrets. -/
def stdFlow : Flow :=
  { client_id := some "cid"
  , client_secret := some "csec"
  , scope := some "https://www.googleapis.com/auth/drive"
  , redirect_uri := none
  , auth_uri := some "https://accounts.google.com/o/oauth2/auth"
  , token_uri := some "https://oauth2.googleapis.com/token"
  , revoke_uri := none
  , user_agent := none
  , offline_access := false }

/-- Fresh instance that already holds a flow. -/
def flowState : AuthState := { baseState with flow := some stdFlow }

/-- Instance with a flow and a resolvable client_id but no oauth_scope
setting. -/
def devNoScopeState : AuthState :=
  { flowState with
    settings := { baseSettings with oauth_scope := none }
  , client_config := [("client_id", PyVal.str "cid")] }

/-- Service config dict holding BOTH an inline key dict and a key file
path (plus the always-required client_user_email). -/
def svcBothConfig (fn : String) (d : List (String × String)) : StrMap :=
  [("client_json_file_path", PyVal.str fn),
    ("client_json_dict", PyVal.dict d),
    ("client_user_email", PyVal.pynone)]

/-- Settings configuring BOTH an inline service key dict and a key file
path. -/
def svcBothState (fn : String) (d : List (String × String)) : AuthState :=
  { baseState with
    settings := { baseSettings with service_config := some (svcBothConfig fn d) } }

/-- Service config dict selecting the PKCS12 key material variant. -/
def pkcs12Config : StrMap :=
  [("client_pkcs12_file_path", PyVal.str "key.p12"),
    ("client_user_email", PyVal.str "user@example.com"),
    ("client_service_email", PyVal.str "sa@example.com")]

/-- Settings configuring only the PKCS12 key material variant. -/
def pkcs12State : AuthState :=
  { baseState with
    settings := { baseSettings with service_config := some pkcs12Config } }

/-- Instance whose redis backend is configured and which holds no
credential. -/
def redisState : AuthState :=
  { baseState with
    storages := { file := none, dictionary := none
                , redis := some { redis_key := some "creds", stored := none } } }

/-- Oracle whose candidate ports all fail to bind. -/
def oracleNoBind : Oracle := { baseOracle with port_binds := fun _ => false }

/-- Oracle whose single redirect request carries an error parameter. -/
def oracleErrParam : Oracle :=
  { baseOracle with query_params := [("error", "access_denied")] }

/-- Oracle whose single redirect request carries neither error nor code. -/
def oracleNoCode : Oracle := { baseOracle with query_params := [] }

/-- Oracle serving a client-secrets file whose redirect_uris list is
present but empty. -/
def emptyRedirectOracle : Oracle :=
  { baseOracle with cs_content := some ("web",
      { client_id := some "cid"
      , client_secret := some "csec"
      , auth_uri := some "au"
      , token_uri := some "tu"
      , redirect_uris := some []
      , revoke_uri := none
      , client_email := none }) }

/-- Outcome classification of a client-config load. -/
inductive CfgOutcome where
  | okConfig
  | invalidConfig
  | indexErr
  | otherErr
deriving DecidableEq, Repr

/-- Classify the computed result of LoadClientConfigFile. -/
def classifyRes (r : Res Unit) : CfgOutcome :=
  match r.result with
  | Except.ok _ => CfgOutcome.okConfig
  | Except.error (PyErr.invalidConfigError _) => CfgOutcome.invalidConfig
  | Except.error PyErr.indexError => CfgOutcome.indexErr
  | Except.error _ => CfgOutcome.otherErr

/-- Spec-side classification of a client-secrets file, from the claim as
amended: malformed content, an unknown client type, or an absent required
key (client_id, client_secret, auth_uri, token_uri, redirect_uris) is a
configuration error; required keys present but an empty redirect_uris
list crashes with an uncaught IndexError; otherwise the load succeeds,
with revoke_uri and client_email optional. -/
def clientSecretsSpec (content : Option (String × ClientInfo)) : CfgOutcome :=
  match content with
  | none => CfgOutcome.invalidConfig
  | some (t, info) =>
    if t ≠ "web" ∧ t ≠ "installed" then CfgOutcome.invalidConfig
    else if info.client_id = none ∨ info.client_secret = none
        ∨ info.auth_uri = none ∨ info.token_uri = none
        ∨ info.redirect_uris = none then CfgOutcome.invalidConfig
    else if info.redirect_uris = some [] then CfgOutcome.indexErr
    else CfgOutcome.okConfig

/-- C3: access_token_expired returns true whenever no credential is held,
and otherwise returns true iff the held credential expiry is at or before
the current time.  The embedding is a plain function of the state (it
returns only a Bool and no successor state), which is the no-mutation part
of the claim. -/
theorem access_token_expired_contract (s : AuthState) (now : Int) :
    access_token_expired s now = true ↔
      s.credentials = none ∨
        ∃ c, s.credentials = some c ∧ c.token_expiry ≤ now := by
  cases hc : s.credentials with
  | none => simp [access_token_expired, hc]
  | some c =>
    simp [access_token_expired, hc, Credential.access_token_expired_at]

/-- Concrete instance of the C3 theorem: a fresh instance holds no
credential, so its access token counts as expired. -/
theorem access_token_expired_contract_witness :
    access_token_expired baseState 0 = true :=
  (access_token_expired_contract baseState 0).mpr (Or.inl rfl)

/-- C2: Refresh fails with a RefreshError exactly when no credential is
held, or the credential lacks a refresh token while the auth method is not
service, or the remote rejects the refresh; every raised error is a
RefreshError; and whenever the preconditions hold the network refresh call
is performed, succeeding silently when the remote accepts and wrapping the
remote rejection reason when it does not. -/
theorem refresh_error_contract (o : Oracle) (s : AuthState) :
    ((∃ m, (Refresh o s).result = Except.error (PyErr.refreshError m)) ↔
      (s.credentials = none ∨ ∃ c, s.credentials = some c ∧
        ((c.refresh_token = none ∧ s.auth_method ≠ some "service")
          ∨ o.refresh_ok = false)))
    ∧ (∀ e, (Refresh o s).result = Except.error e →
        ∃ m, e = PyErr.refreshError m)
    ∧ (∀ c, s.credentials = some c →
        ¬(c.refresh_token = none ∧ s.auth_method ≠ some "service") →
        (Effect.network "refresh" ∈ (Refresh o s).trace
          ∧ (o.refresh_ok = true → (Refresh o s).result = Except.ok ())
          ∧ (o.refresh_ok = false → (Refresh o s).result = Except.error
              (PyErr.refreshError (String.append
                "Access token refresh failed: " o.refresh_err))))) := by
  cases hc : s.credentials with
  | none =>
    refine ⟨?_, ?_, ?_⟩
    · simp [Refresh, hc]
    · intro e he
      simp [Refresh, hc] at he
      exact ⟨_, he.symm⟩
    · intro c hcc
      exact absurd hcc (by simp)
  | some c =>
    by_cases hrt : (c.refresh_token = none ∧ s.auth_method ≠ some "service")
    · refine ⟨?_, ?_, ?_⟩
      · constructor
        · intro _
          exact Or.inr ⟨c, rfl, Or.inl hrt⟩
        · intro _
          exact ⟨"No refresh_token found.Please set access_type of OAuth to offline.",
            by simp [Refresh, hc, if_pos hrt]⟩
      · intro e he
        simp only [Refresh, hc, if_pos hrt] at he
        cases he
        exact ⟨_, rfl⟩
      · intro c2 hc2 hn2
        cases hc2
        exact absurd hrt hn2
    · cases hok : o.refresh_ok with
      | true =>
        refine ⟨?_, ?_, ?_⟩
        · constructor
          · rintro ⟨m, hm⟩
            simp [Refresh, hc, if_neg hrt, hok] at hm
          · rintro (h | ⟨c2, hc2, h2⟩)
            · exact absurd h (by simp)
            · cases hc2
              rcases h2 with h2 | h2
              · exact absurd h2 hrt
              · exact Bool.noConfusion h2
        · intro e he
          simp [Refresh, hc, if_neg hrt, hok] at he
        · intro c2 hc2 hn2
          refine ⟨?_, fun _ => ?_, fun hf => ?_⟩
          · simp [Refresh, hc, if_neg hrt, hok]
          · simp [Refresh, hc, if_neg hrt, hok]
          · exact Bool.noConfusion hf
      | false =>
        refine ⟨?_, ?_, ?_⟩
        · constructor
          · intro _
            exact Or.inr ⟨c, rfl, Or.inr rfl⟩
          · intro _
            exact ⟨String.append "Access token refresh failed: " o.refresh_err,
              by simp [Refresh, hc, if_neg hrt, hok]⟩
        · intro e he
          simp only [Refresh, hc, if_neg hrt, hok, Bool.false_eq_true,
            if_false] at he
          cases he
          exact ⟨_, rfl⟩
        · intro c2 hc2 hn2
          refine ⟨?_, fun ht => ?_, fun _ => ?_⟩
          · simp [Refresh, hc, if_neg hrt, hok]
          · exact Bool.noConfusion ht
          · simp [Refresh, hc, if_neg hrt, hok]

/-- Concrete instance of the C2 theorem: a fresh instance holds no
credential, so Refresh raises a RefreshError. -/
theorem refresh_error_contract_witness :
    ∃ m, (Refresh baseOracle baseState).result =
      Except.error (PyErr.refreshError m) :=
  (refresh_error_contract baseOracle baseState).1.mpr (Or.inl rfl)

/-- C4: Authorize raises AuthenticationError whenever it is invoked while
access_token_expired is true, and in that case mutates nothing — in
particular the API service handle is not built — and performs no external
effect. -/
theorem authorize_expired_raises (o : Oracle) (s : AuthState)
    (h : access_token_expired s o.now = true) :
    (Authorize o s).result = Except.error (PyErr.authenticationError
        "No valid credentials provided to authorize")
    ∧ (Authorize o s).state = s
    ∧ (Authorize o s).trace = [] := by
  simp [Authorize, h]

/-- Concrete instance of the C4 theorem: on a fresh instance (no
credential, hence expired token) Authorize raises and builds no service. -/
theorem authorize_expired_raises_witness :
    access_token_expired baseState baseOracle.now = true
    ∧ (Authorize baseOracle baseState).result =
        Except.error (PyErr.authenticationError
          "No valid credentials provided to authorize")
    ∧ (Authorize baseOracle baseState).state.service = false :=
  ⟨by decide,
    (authorize_expired_raises baseOracle baseState (by decide)).1,
    by rw [(authorize_expired_raises baseOracle baseState (by decide)).2.1]
       decide⟩

/-- C7: evaluation of DeviceAuth at the two unresolvable-config inputs.
With a flow but no resolvable client_id, the body raises
InvalidConfigError — which is outside the AuthError hierarchy — before
any network effect.  With a resolvable client_id but the oauth_scope
setting absent, the body instead crashes with the TypeError raised inside
scopes_to_string, before any network effect and before its own
InvalidConfigError check for oauth_scope can run (that check can never
fire, since scopes_to_string never returns None). -/
theorem deviceAuth_config_error_evaluation :
    ((DeviceAuthBody baseOracle flowState).result =
        Except.error (PyErr.invalidConfigError
          "client_id is required for Device Authentication")
      ∧ (DeviceAuthBody baseOracle flowState).trace = []
      ∧ PyErr.isAuthError (PyErr.invalidConfigError
          "client_id is required for Device Authentication") = false)
    ∧ ((DeviceAuthBody baseOracle devNoScopeState).result =
        Except.error (PyErr.typeError "can only join an iterable")
      ∧ (DeviceAuthBody baseOracle devNoScopeState).trace = []) := by
  decide

/-- C1 counterexample: with settings configuring both an inline key dict
and a key file path, ServiceAuth succeeds by READING THE KEY FILE — the
credential is built from the file, not from the dict, because
LoadServiceConfigSettings copies only the first truthy key of its
priority list (file path before dict) into client_config. -/
theorem serviceAuth_priority_counterexample :
    (ServiceAuthBody baseOracle ["client_user_email"]
        (svcBothState "sa.json" [("client_email", "sa@example.com")])).1.result =
      Except.ok ()
    ∧ Effect.fileRead "sa.json" ∈ (ServiceAuthBody baseOracle ["client_user_email"]
        (svcBothState "sa.json" [("client_email", "sa@example.com")])).1.trace
    ∧ ((ServiceAuthBody baseOracle ["client_user_email"]
        (svcBothState "sa.json" [("client_email", "sa@example.com")])).1.state.credentials.map
          Credential.source) = some (CredSource.jsonKeyfileName "sa.json") := by
  decide

/-- C1 as amended: for every settings configuration holding both an
inline key dict and a key file path (the canonical service_config shape
with a present client_user_email), service authentication reads the key
file and constructs the credential from it; the inline dict is not used.
The dict-first priority of the spec holds only over key material already
present in client_config, which LoadServiceConfigSettings never produces
for more than one key. -/
theorem serviceAuth_bothConfigured_uses_file (fn : String)
    (d : List (String × String)) (hfn : fn ≠ "") (_hd : d ≠ []) :
    Effect.fileRead fn ∈ (ServiceAuthBody baseOracle ["client_user_email"]
        (svcBothState fn d)).1.trace
    ∧ ((ServiceAuthBody baseOracle ["client_user_email"]
        (svcBothState fn d)).1.state.credentials.map Credential.source) =
      some (CredSource.jsonKeyfileName fn) := by
  constructor <;>
    simp [ServiceAuthBody, LoadServiceConfigSettings, parseInlineJson,
      resolveServiceKeyMaterial, svcBothState, svcBothConfig, baseState,
      baseSettings, StrMap.get, StrMap.set, StrMap.hasKey, serviceKeyTruthy,
      truthyOpt, PyVal.truthy, copyConfigs, List.find?,
      from_json_keyfile_name, pvToOpt, hfn]

/-- Concrete instance of the C1 amended theorem. -/
theorem serviceAuth_bothConfigured_uses_file_witness :
    Effect.fileRead "key.json" ∈ (ServiceAuthBody baseOracle
        ["client_user_email"] (svcBothState "key.json" [("client_email", "x@y")])).1.trace
    ∧ ((ServiceAuthBody baseOracle ["client_user_email"]
        (svcBothState "key.json" [("client_email", "x@y")])).1.state.credentials.map
          Credential.source) = some (CredSource.jsonKeyfileName "key.json") :=
  serviceAuth_bothConfigured_uses_file "key.json" [("client_email", "x@y")]
    (by decide) (by decide)

/-- C9: whenever the PKCS12 key-material variant is selected (the other
three service keys are not truthy and the PKCS12 path is),
LoadServiceConfigSettings appends "client_service_email" to the
class-level SERVICE_CONFIGS_LIST it was given, and a second call — on any
instance, the list being class-level shared state threaded between
instances — appends it again, growing the list by one element per call. -/
theorem loadServiceConfig_pkcs12_appends
    (scl : List String) (s s2 : AuthState) (sc sc2 : StrMap)
    (h1 : s.settings.service_config = some sc)
    (h2 : serviceKeyTruthy sc "client_json_file_path" = false)
    (h3 : serviceKeyTruthy sc "client_json_dict" = false)
    (h4 : serviceKeyTruthy sc "client_json" = false)
    (h5 : serviceKeyTruthy sc "client_pkcs12_file_path" = true)
    (g1 : s2.settings.service_config = some sc2)
    (g2 : serviceKeyTruthy sc2 "client_json_file_path" = false)
    (g3 : serviceKeyTruthy sc2 "client_json_dict" = false)
    (g4 : serviceKeyTruthy sc2 "client_json" = false)
    (g5 : serviceKeyTruthy sc2 "client_pkcs12_file_path" = true) :
    (LoadServiceConfigSettings scl s).2 = scl ++ ["client_service_email"]
    ∧ (LoadServiceConfigSettings (LoadServiceConfigSettings scl s).2 s2).2 =
        scl ++ ["client_service_email", "client_service_email"] := by
  have key : ∀ (l : List String) (st : AuthState) (m : StrMap),
      st.settings.service_config = some m →
      serviceKeyTruthy m "client_json_file_path" = false →
      serviceKeyTruthy m "client_json_dict" = false →
      serviceKeyTruthy m "client_json" = false →
      serviceKeyTruthy m "client_pkcs12_file_path" = true →
      (LoadServiceConfigSettings l st).2 = l ++ ["client_service_email"] := by
    intro l st m hm p2 p3 p4 p5
    simp only [LoadServiceConfigSettings, hm, List.find?, p2, p3, p4, p5]
    split <;> simp
  refine ⟨key scl s sc h1 h2 h3 h4 h5, ?_⟩
  rw [key scl s sc h1 h2 h3 h4 h5,
    key (scl ++ ["client_service_email"]) s2 sc2 g1 g2 g3 g4 g5,
    List.append_assoc]
  rfl

/-- Concrete instance of the C9 theorem: starting from the initial
class-level list, a PKCS12 configuration grows it to two entries, and a
second call to three. -/
theorem loadServiceConfig_pkcs12_appends_witness :
    (LoadServiceConfigSettings ["client_user_email"] pkcs12State).2 =
      ["client_user_email", "client_service_email"]
    ∧ (LoadServiceConfigSettings
        (LoadServiceConfigSettings ["client_user_email"] pkcs12State).2
        pkcs12State).2 =
      ["client_user_email", "client_service_email", "client_service_email"] :=
  loadServiceConfig_pkcs12_appends ["client_user_email"] pkcs12State
    pkcs12State pkcs12Config pkcs12Config rfl (by decide) (by decide)
    (by decide) (by decide) rfl (by decide) (by decide) (by decide) (by decide)

/-- C10: with no credential held, SaveCredentialsFile and
_SaveCredentialsDictionary raise InvalidCredentialsError without touching
any backend, while SaveCredentialsRedis (redis configured) performs put on
the missing credential with no such check — the no-credential error
contract is not uniform across the three backends. -/
theorem saveCredentials_missing_contract (s : AuthState) (rs : RedisStorage)
    (hc : s.credentials = none) (hr : s.storages.redis = some rs) :
    (SaveCredentialsFile s).result =
      Except.error (PyErr.invalidCredentialsError "No credentials to save")
    ∧ (SaveCredentialsDictionary s).result =
      Except.error (PyErr.invalidCredentialsError "No credentials to save")
    ∧ (SaveCredentialsFile s).trace = []
    ∧ (SaveCredentialsDictionary s).trace = []
    ∧ (SaveCredentialsRedis s).result = Except.ok ()
    ∧ (SaveCredentialsRedis s).trace = [Effect.storagePut "redis" none] := by
  refine ⟨?_, ?_, ?_, ?_, ?_, ?_⟩ <;>
    simp [SaveCredentialsFile, SaveCredentialsDictionary,
      SaveCredentialsRedis, hc, hr]

/-- Concrete instance of the C10 theorem on a redis-configured instance
holding no credential. -/
theorem saveCredentials_missing_contract_witness :
    (SaveCredentialsRedis redisState).result = Except.ok ()
    ∧ (SaveCredentialsRedis redisState).trace = [Effect.storagePut "redis" none]
    ∧ (SaveCredentialsFile redisState).result =
        Except.error (PyErr.invalidCredentialsError "No credentials to save") :=
  have h := saveCredentials_missing_contract redisState
    { redis_key := some "creds", stored := none } rfl rfl
  ⟨h.2.2.2.2.1, h.2.2.2.2.2, h.1⟩

/-- C6: the local-webserver body raises AuthenticationError when no
candidate port binds; otherwise it serves exactly one redirect request
and then raises AuthenticationRejected when the query parameters contain
"error", returns the "code" value when present, and raises
AuthenticationError when neither is present. -/
theorem localWebserver_redirect_contract (o : Oracle) (s : AuthState)
    (f : Flow) (host : String) (ports : List Nat) (lb : Bool)
    (hf : s.flow = some f) :
    (ports.find? (fun p => o.port_binds p) = none →
      (LocalWebserverAuthBody o host (some ports) lb s).result =
        Except.error (PyErr.authenticationError ""))
    ∧ (∀ p, ports.find? (fun q => o.port_binds q) = some p →
        (((qlookup o.query_params "error").isSome = true →
          (LocalWebserverAuthBody o host (some ports) lb s).result =
            Except.error (PyErr.authenticationRejected
              "User rejected authentication"))
        ∧ (∀ v, qlookup o.query_params "error" = none →
            qlookup o.query_params "code" = some v →
            (LocalWebserverAuthBody o host (some ports) lb s).result =
              Except.ok v)
        ∧ (qlookup o.query_params "error" = none →
            qlookup o.query_params "code" = none →
            (LocalWebserverAuthBody o host (some ports) lb s).result =
              Except.error (PyErr.authenticationError "No code found in redirect"))
        ∧ (LocalWebserverAuthBody o host (some ports) lb s).trace.count
            Effect.servedRedirect = 1)) := by
  constructor
  · intro hnone
    simp [LocalWebserverAuthBody, hnone]
  · intro p hp
    refine ⟨?_, ?_, ?_, ?_⟩
    · intro he
      simp [LocalWebserverAuthBody, hp, hf, he]
    · intro v he hv
      simp [LocalWebserverAuthBody, hp, hf, he, hv]
    · intro he hv
      simp [LocalWebserverAuthBody, hp, hf, he, hv]
    · rcases herr : qlookup o.query_params "error" with _ | ev
      · rcases hcode : qlookup o.query_params "code" with _ | v <;>
          cases lb <;>
          simp [LocalWebserverAuthBody, hp, hf, herr, hcode,
            List.count_append, List.count_cons, List.count_nil]
      · cases lb <;>
          simp [LocalWebserverAuthBody, hp, hf, herr,
            List.count_append, List.count_cons, List.count_nil]

/-- Concrete instances of the C6 theorem: all four outcomes at the
default port list. -/
theorem localWebserver_redirect_contract_witness :
    (LocalWebserverAuthBody oracleNoBind "localhost" (some [8080, 8090])
        true flowState).result = Except.error (PyErr.authenticationError "")
    ∧ (LocalWebserverAuthBody oracleErrParam "localhost" (some [8080, 8090])
        true flowState).result =
      Except.error (PyErr.authenticationRejected "User rejected authentication")
    ∧ (LocalWebserverAuthBody baseOracle "localhost" (some [8080, 8090])
        true flowState).result = Except.ok "abc123"
    ∧ (LocalWebserverAuthBody oracleNoCode "localhost" (some [8080, 8090])
        true flowState).result =
      Except.error (PyErr.authenticationError "No code found in redirect") :=
  ⟨(localWebserver_redirect_contract oracleNoBind flowState stdFlow
      "localhost" [8080, 8090] true rfl).1 (by decide),
   ((localWebserver_redirect_contract oracleErrParam flowState stdFlow
      "localhost" [8080, 8090] true rfl).2 8080 (by decide)).1 (by decide),
   ((localWebserver_redirect_contract baseOracle flowState stdFlow
      "localhost" [8080, 8090] true rfl).2 8080 (by decide)).2.1 "abc123"
      (by decide) (by decide),
   ((localWebserver_redirect_contract oracleNoCode flowState stdFlow
      "localhost" [8080, 8090] true rfl).2 8080 (by decide)).2.2.1
      (by decide) (by decide)⟩

/-- C8 counterexample: a client-secrets file with every required key
present but an empty redirect_uris list does not raise InvalidConfigError
— the loader crashes with an uncaught IndexError (only KeyError is
caught around the field copies). -/
theorem loadClientConfigFile_emptyRedirect_counterexample :
    (LoadClientConfigFile emptyRedirectOracle baseState).result =
      Except.error PyErr.indexError
    ∧ classifyRes (LoadClientConfigFile emptyRedirectOracle baseState) =
      CfgOutcome.indexErr := by
  decide

/-- C8 as amended: the loader raises InvalidConfigError exactly for
malformed content, a client type outside the web/installed pair, or an
absent required key (client id, secret, auth URI, token URI,
redirect_uris); a present but empty redirect_uris list instead fails with
an uncaught IndexError; a missing revoke URI or service email causes no
error.  Stated as agreement with the spec-side classifier on every file
content. -/
theorem loadClientConfigFile_contract (o : Oracle) (s : AuthState)
    (path : String) (hp : s.settings.client_config_file = some path) :
    classifyRes (LoadClientConfigFile o s) = clientSecretsSpec o.cs_content := by
  rcases hco : o.cs_content with _ | ⟨t, info⟩
  · simp [LoadClientConfigFile, clientsecrets_loadfile, classifyRes,
      clientSecretsSpec, hp, hco]
  · obtain ⟨ci, cs, au, tu, ru, rv, ce⟩ := info
    by_cases ht : (t ≠ "web" ∧ t ≠ "installed")
    · simp [LoadClientConfigFile, clientsecrets_loadfile, classifyRes,
        clientSecretsSpec, hp, hco, ht]
    · rcases ru with _ | ⟨_ | ⟨r0, rl⟩⟩ <;> cases ci <;> cases cs <;>
        cases au <;> cases tu <;>
        simp [LoadClientConfigFile, clientsecrets_loadfile, classifyRes,
          clientSecretsSpec, hp, hco, ht]

/-- Concrete instance of the C8 theorem: the default well-formed client
secrets classify as a successful load on both sides. -/
theorem loadClientConfigFile_contract_witness :
    classifyRes (LoadClientConfigFile baseOracle baseState) =
      clientSecretsSpec baseOracle.cs_content
    ∧ clientSecretsSpec baseOracle.cs_content = CfgOutcome.okConfig :=
  ⟨loadClientConfigFile_contract baseOracle baseState "client_secrets.json" rfl,
    by decide⟩

theorem storageFree_append (a b : List Effect) :
    storageFree (a ++ b) = (storageFree a && storageFree b) := by
  simp [storageFree, List.all_append]

theorem sf_LoadServiceConfigSettings (scl : List String) (s : AuthState) :
    storageFree (LoadServiceConfigSettings scl s).1.trace = true := by
  unfold LoadServiceConfigSettings
  dsimp only
  repeat' split
  all_goals rfl

theorem sf_LoadClientConfigFile (o : Oracle) (s : AuthState) :
    storageFree (LoadClientConfigFile o s).trace = true := by
  unfold LoadClientConfigFile
  repeat' split
  all_goals rfl

theorem sf_LoadClientConfigSettings (s : AuthState) :
    storageFree (LoadClientConfigSettings s).trace = true := by
  unfold LoadClientConfigSettings
  repeat' split
  all_goals rfl

theorem sf_LoadClientConfig (o : Oracle) (scl : List String) (s : AuthState) :
    storageFree (LoadClientConfig o scl s).1.trace = true := by
  unfold LoadClientConfig
  repeat' split
  · rfl
  · exact sf_LoadClientConfigFile o s
  · exact sf_LoadClientConfigSettings s
  · exact sf_LoadServiceConfigSettings scl s
  · rfl

theorem sf_GetFlow (o : Oracle) (scl : List String) (s : AuthState) :
    storageFree (GetFlow o scl s).1.trace = true := by
  unfold GetFlow
  rcases hlc : LoadClientConfig o scl s with ⟨r1, scl1⟩
  have h1 : storageFree r1.trace = true := by
    have h := sf_LoadClientConfig o scl s
    rw [hlc] at h
    exact h
  by_cases hc : ¬ (CLIENT_CONFIGS_LIST.all
      (fun k => StrMap.hasKey s.client_config k)) = true
  · simp only [hc, if_true, hlc]
    rcases hr : r1.result with e | u <;> simp [hr]
    · exact h1
    · repeat' split
      all_goals simp [h1]
  · simp only [hc, if_false]
    repeat' split
    all_goals rfl

theorem sf_Refresh (o : Oracle) (s : AuthState) :
    storageFree (Refresh o s).trace = true := by
  unfold Refresh
  repeat' split
  all_goals rfl

theorem sf_Authorize (o : Oracle) (s : AuthState) :
    storageFree (Authorize o s).trace = true := by
  unfold Authorize
  repeat' split
  all_goals rfl

theorem sf_Authenticate (o : Oracle) (scl : List String) (code : String)
    (s : AuthState) :
    storageFree (Authenticate o scl code s).1.trace = true := by
  unfold Authenticate
  by_cases hf : s.flow = none
  · rcases hg : GetFlow o scl s with ⟨r1, scl1⟩
    have h1 : storageFree r1.trace = true := by
      have h := sf_GetFlow o scl s
      rw [hg] at h
      exact h
    simp only [hf, if_true, hg]
    rcases hr : r1.result with e | u
    · simp only [hr]
      exact h1
    · simp only [hr]
      try dsimp only
      split <;> (rw [storageFree_append, h1]; rfl)
  · simp only [hf, if_false]
    try dsimp only
    repeat' split
    all_goals rfl

theorem sf_Auth (o : Oracle) (scl : List String) (code : String)
    (s : AuthState) :
    storageFree (Auth o scl code s).1.trace = true := by
  unfold Auth
  rcases ha : Authenticate o scl code s with ⟨r1, scl1⟩
  have h1 : storageFree r1.trace = true := by
    have h := sf_Authenticate o scl code s
    rw [ha] at h
    exact h
  rcases hr : r1.result with e | u <;>
    simp [hr, ha, storageFree_append, h1, sf_Authorize]

theorem sf_LocalWebserverAuthBody (o : Oracle) (host : String)
    (pn : Option (List Nat)) (lb : Bool) (s : AuthState) :
    storageFree (LocalWebserverAuthBody o host pn lb s).trace = true := by
  unfold LocalWebserverAuthBody
  dsimp only
  repeat' split
  all_goals rfl

theorem sf_CommandLineAuthBody (o : Oracle) (s : AuthState) :
    storageFree (CommandLineAuthBody o s).trace = true := by
  unfold CommandLineAuthBody
  dsimp only
  repeat' split
  all_goals rfl

theorem sf_DeviceAuthBody (o : Oracle) (s : AuthState) :
    storageFree (DeviceAuthBody o s).trace = true := by
  unfold DeviceAuthBody
  dsimp only
  repeat' split
  all_goals rfl

theorem sf_resolveServiceKeyMaterial (o : Oracle) (cc : StrMap)
    (kd : Option PyVal) (cred : Credential) (eff : List Effect)
    (h : resolveServiceKeyMaterial o cc kd = Except.ok (cred, eff)) :
    storageFree eff = true := by
  unfold resolveServiceKeyMaterial at h
  try dsimp only at h
  by_cases c1 : truthyOpt kd = true
  · rw [if_pos c1] at h
    repeat' split at h
    all_goals cases h
    all_goals rfl
  · rw [if_neg c1] at h
    by_cases c2 : truthyOpt (StrMap.get cc "client_json_file_path") = true
    · rw [if_pos c2] at h
      repeat' split at h
      all_goals cases h
      all_goals rfl
    · rw [if_neg c2] at h
      repeat' split at h
      all_goals cases h
      all_goals rfl

theorem sf_ServiceAuthBody (o : Oracle) (scl : List String) (s : AuthState) :
    storageFree (ServiceAuthBody o scl s).1.trace = true := by
  unfold ServiceAuthBody
  by_cases hl : (scl.any (fun k => ¬ StrMap.hasKey s.client_config k)) = true
  · rcases hs : LoadServiceConfigSettings scl s with ⟨r1, scl1⟩
    have h1 : storageFree r1.trace = true := by
      have h := sf_LoadServiceConfigSettings scl s
      rw [hs] at h
      exact h
    simp only [hl, if_true, hs]
    rcases hr : r1.result with e | u
    · simp only [hr]
      exact h1
    · simp only [hr]
      rcases hsc : r1.state.settings.oauth_scope with _ | sc
      · simp only [hsc]
        exact h1
      · simp only [hsc]
        rcases hpj : parseInlineJson r1.state.client_config with e | kd
        · simp only [hpj]
          exact h1
        · simp only [hpj]
          rcases hrk : resolveServiceKeyMaterial o r1.state.client_config kd
            with e | ⟨cred0, eff⟩
          · simp only [hrk]
            exact h1
          · simp only [hrk]
            rw [storageFree_append, h1,
              sf_resolveServiceKeyMaterial o r1.state.client_config kd
                cred0 eff hrk]
            rfl
  · have hnl : (scl.any (fun k => ¬ StrMap.hasKey s.client_config k)) = false :=
      Bool.eq_false_iff.mpr hl
    simp only [hnl, Bool.false_eq_true, if_false]
    rcases hsc : s.settings.oauth_scope with _ | sc
    · simp [hsc, storageFree]
    · simp only [hsc]
      rcases hpj : parseInlineJson s.client_config with e | kd
      · simp [hpj, storageFree]
      · simp only [hpj]
        rcases hrk : resolveServiceKeyMaterial o s.client_config kd
          with e | ⟨cred0, eff⟩
        · simp [hrk, storageFree]
        · have he := sf_resolveServiceKeyMaterial o s.client_config kd
            cred0 eff hrk
          simp only [hrk]
          try dsimp only
          simp [he]

theorem storageFree_nil : storageFree [] = true := rfl

theorem mapVal_trace {α β : Type} (r : Res α) (f : α → β) :
    (Res.mapVal r f).trace = r.trace := rfl

theorem mapVal_state {α β : Type} (r : Res α) (f : α → β) :
    (Res.mapVal r f).state = r.state := rfl

theorem sf_CheckAuth (o : Oracle) (dec : AuthState → Res (Option String))
    (scl : List String) (s : AuthState)
    (hdec : ∀ st, storageFree (dec st).trace = true)
    (hs : truthyOptBool s.settings.save_credentials = false) :
    storageFree (CheckAuth o dec scl s).1.trace = true := by
  unfold CheckAuth
  simp only [hs, Bool.false_eq_true, and_false, if_false]
  repeat' split
  all_goals simp_all [storageFree_append, storageFree_nil, mapVal_trace,
    sf_GetFlow, sf_Refresh, sf_Auth, hdec]

theorem sf_CheckServiceAuth (o : Oracle) (scl : List String) (s : AuthState)
    (hs : truthyOptBool s.settings.save_credentials = false) :
    storageFree (CheckServiceAuth o scl s).1.trace = true := by
  unfold CheckServiceAuth
  simp only [hs, Bool.false_eq_true, and_false, if_false]
  repeat' split
  all_goals simp_all [storageFree_append, storageFree_nil,
    sf_ServiceAuthBody, sf_Authorize, sf_Refresh]

/-- C5: with save_credentials not enabled, no authorization variant —
local-webserver, command-line, device, or service-account — reads or
writes any credential storage backend: their full effect traces contain
no storageGet and no storagePut, for every state, oracle and class-level
list. -/
theorem authorization_storage_free_when_save_disabled (o : Oracle)
    (scl : List String) (s : AuthState)
    (hs : truthyOptBool s.settings.save_credentials = false) :
    storageFree (LocalWebserverAuth o scl s).1.trace = true
    ∧ storageFree (CommandLineAuth o scl s).1.trace = true
    ∧ storageFree (DeviceAuth o scl s).1.trace = true
    ∧ storageFree (ServiceAuth o scl s).1.trace = true := by
  refine ⟨?_, ?_, ?_, ?_⟩
  · exact sf_CheckAuth o _ scl s
      (fun st => sf_LocalWebserverAuthBody o "localhost" none true st) hs
  · exact sf_CheckAuth o _ scl s (fun st => sf_CommandLineAuthBody o st) hs
  · exact sf_CheckAuth o _ scl s (fun st => sf_DeviceAuthBody o st) hs
  · exact sf_CheckServiceAuth o scl s hs

/-- Concrete instance of the C5 theorem: full default-settings runs of all
four variants touch no storage backend. -/
theorem authorization_storage_free_when_save_disabled_witness :
    truthyOptBool baseState.settings.save_credentials = false
    ∧ storageFree (LocalWebserverAuth baseOracle SERVICE_CONFIGS_LIST_init
        baseState).1.trace = true
    ∧ storageFree (ServiceAuth baseOracle SERVICE_CONFIGS_LIST_init
        baseState).1.trace = true :=
  ⟨by decide,
    (authorization_storage_free_when_save_disabled baseOracle
      SERVICE_CONFIGS_LIST_init baseState (by decide)).1,
    (authorization_storage_free_when_save_disabled baseOracle
      SERVICE_CONFIGS_LIST_init baseState (by decide)).2.2.2⟩

end PyDrive
